import Mathlib

/-!
# Conference management backend: shallow embedding and verification

This file embeds the Express/SQLite backend of the conference-management
application (`src/App.tsx`, server part) into Lean 4 and proves or refutes
the specification's claims about it.

The SQLite tables become lists of records inside a `DB` structure; each
API route handler becomes a Lean function from a verified bearer payload
(`Caller`, the decoded JWT) and the request parameters to a new `DB` and a
response.  SQL `UPDATE ... WHERE` becomes `List.map` guarded by the WHERE
predicate, `INSERT` becomes list append with an auto-increment counter,
`SELECT ... WHERE` becomes `List.filter` / `List.find?`, and inner joins
become `filterMap` over the left table with `find?` into the joined table.
-/

namespace ConfApp

/-- A row of the `users` table (`CREATE TABLE users`, App.tsx).
`role` is TEXT with default `'user'`; the seeded admin has role `'admin'`. -/
structure User where
  id : Nat
  email : String
  password : String
  name : String
  role : String
  affiliation : Option String
  bio : Option String
  profile_picture : Option String
deriving DecidableEq, Repr

/-- A row of the `conferences` table. -/
structure Conference where
  id : Nat
  title : String
  description : String
  date : String
  location : String
  status : String
deriving DecidableEq, Repr

/-- A row of the `submissions` table. `status` is TEXT with default `'pending'`. -/
structure Submission where
  id : Nat
  conference_id : Nat
  user_id : Nat
  title : String
  abstract : String
  file_path : Option String
  status : String
deriving DecidableEq, Repr

/-- A row of the `reviews` table.  Note: the schema declares NO uniqueness
constraint on `(submission_id, reviewer_id)`. -/
structure Review where
  id : Nat
  submission_id : Nat
  reviewer_id : Nat
  comments : Option String
  score : Option Int
deriving DecidableEq, Repr

/-- A row of the `documents` table.  `user_id` is a nullable column: the
`POST /api/documents` handler binds `req.body.user_id` directly when the
caller is an admin, so it can be absent.  `accepted` is INTEGER DEFAULT 0. -/
structure Document where
  id : Nat
  user_id : Option Nat
  title : String
  file_path : Option String
  status : String
  type : String
  accepted : Nat
deriving DecidableEq, Repr

/-- A row of the `schedule` table. -/
structure ScheduleItem where
  id : Nat
  conference_id : Nat
  title : String
  start_time : String
  end_time : String
  room : String
deriving DecidableEq, Repr

/-- The whole SQLite database, with one auto-increment counter per table. -/
structure DB where
  users : List User
  conferences : List Conference
  submissions : List Submission
  reviews : List Review
  documents : List Document
  schedule : List ScheduleItem
  nextUserId : Nat
  nextConferenceId : Nat
  nextSubmissionId : Nat
  nextReviewId : Nat
  nextDocumentId : Nat
  nextScheduleId : Nat
deriving DecidableEq, Repr

/-- The decoded JWT payload placed on `req.user` by the `authenticate`
middleware: `jwt.sign({ id, email, role, name })`. -/
structure Caller where
  id : Nat
  email : String
  role : String
  name : String
deriving DecidableEq, Repr

/-- An HTTP response: either a success payload or
`res.status(code).json({ error: msg })`. -/
inductive Resp (α : Type) where
  | ok (val : α)
  | err (code : Nat) (msg : String)
deriving DecidableEq, Repr

/-! ## Listing endpoints -/

/-- One row of the admin branch of `GET /api/submissions`:
`SELECT s.*, u.name as author_name, c.title as conference_title, (...) as reviewers`. -/
structure AdminSubmissionRow where
  sub : Submission
  author_name : String
  conference_title : String
  reviewers : Option String
deriving DecidableEq, Repr

/-- One row of the non-admin branch of `GET /api/submissions`:
`SELECT s.*, c.title as conference_title`. -/
structure UserSubmissionRow where
  sub : Submission
  conference_title : String
deriving DecidableEq, Repr

/-- The role-dependent result shape of `GET /api/submissions`. -/
inductive SubmissionsResult where
  | adminRows (rows : List AdminSubmissionRow)
  | userRows (rows : List UserSubmissionRow)
deriving DecidableEq, Repr

/-- The correlated subquery
`SELECT GROUP_CONCAT(u2.name, ', ') FROM reviews r JOIN users u2 ON
r.reviewer_id = u2.id WHERE r.submission_id = s.id`: the names of the
joined reviewers of a submission, in `reviews`-table order. -/
def reviewerNames (db : DB) (sid : Nat) : List String :=
  (db.reviews.filter (fun r => r.submission_id == sid)).filterMap
    (fun r => (db.users.find? (fun u => u.id == r.reviewer_id)).map (fun u => u.name))

/-- `GET /api/submissions`.  Admins get every submission joined with author
name, conference title and the concatenated reviewer names (NULL when no
reviewer is assigned); non-admins get only `WHERE s.user_id = ?` rows
joined with the conference title. -/
def listSubmissions (caller : Caller) (db : DB) : SubmissionsResult :=
  if caller.role = "admin" then
    .adminRows (db.submissions.filterMap (fun s =>
      match db.users.find? (fun u => u.id == s.user_id),
            db.conferences.find? (fun c => c.id == s.conference_id) with
      | some u, some c =>
          let names := reviewerNames db s.id
          some { sub := s, author_name := u.name, conference_title := c.title,
                 reviewers := if names.isEmpty then none
                              else some (String.intercalate ", " names) }
      | _, _ => none))
  else
    .userRows ((db.submissions.filter (fun s => s.user_id == caller.id)).filterMap
      (fun s => (db.conferences.find? (fun c => c.id == s.conference_id)).map
        (fun c => { sub := s, conference_title := c.title })))

/-- One row of the admin branch of `GET /api/documents`:
`SELECT d.*, u.name as user_name FROM documents d JOIN users u ON d.user_id = u.id`. -/
structure AdminDocumentRow where
  doc : Document
  user_name : String
deriving DecidableEq, Repr

/-- The role-dependent result shape of `GET /api/documents`. -/
inductive DocumentsResult where
  | adminRows (rows : List AdminDocumentRow)
  | userRows (rows : List Document)
deriving DecidableEq, Repr

/-- `GET /api/documents`.  Admins get every document joined with the owner
name (documents with a NULL `user_id` join nothing and are dropped);
non-admins get `SELECT * FROM documents WHERE user_id = ?`. -/
def listDocuments (caller : Caller) (db : DB) : DocumentsResult :=
  if caller.role = "admin" then
    .adminRows (db.documents.filterMap (fun d =>
      match d.user_id with
      | some uid => (db.users.find? (fun u => u.id == uid)).map
          (fun u => { doc := d, user_name := u.name })
      | none => none))
  else
    .userRows (db.documents.filter (fun d => d.user_id == some caller.id))

/-! ## Auth endpoints -/

/-- The password-free user projection returned by `GET /api/auth/me`,
`PATCH /api/profile` and `GET /api/users`:
`SELECT id, email, name, role, affiliation, bio, profile_picture FROM users`. -/
structure PublicUser where
  id : Nat
  email : String
  name : String
  role : String
  affiliation : Option String
  bio : Option String
  profile_picture : Option String
deriving DecidableEq, Repr

/-- The projection of a `users` row onto the columns selected by the
auth/profile/users endpoints (everything except `password`). -/
def publicView (u : User) : PublicUser :=
  { id := u.id, email := u.email, name := u.name, role := u.role,
    affiliation := u.affiliation, bio := u.bio, profile_picture := u.profile_picture }

/-- `GET /api/auth/me`: look up the caller's row, selecting only the
non-password columns. -/
def getMe (caller : Caller) (db : DB) : Option PublicUser :=
  (db.users.find? (fun u => u.id == caller.id)).map publicView

/-- `GET /api/users` (admin only): all users, non-password columns only. -/
def listUsers (caller : Caller) (db : DB) : Resp (List PublicUser) :=
  if caller.role = "admin" then .ok (db.users.map publicView)
  else .err 403 "Forbidden"

/-- The user object embedded in register/login responses:
`{ id, email, name, role }`. -/
structure AuthUser where
  id : Nat
  email : String
  name : String
  role : String
deriving DecidableEq, Repr

/-- The claims signed into the issued JWT: `{ id, email, role, name }`. -/
structure TokenPayload where
  id : Nat
  email : String
  role : String
  name : String
deriving DecidableEq, Repr

/-- The body of a successful register/login response: `{ token, user }`. -/
structure AuthResponse where
  token : TokenPayload
  user : AuthUser
deriving DecidableEq, Repr

/-- `POST /api/auth/register`.  `hash` models `bcrypt.hashSync`.  The row is
inserted with the hashed password and default role `'user'`; the UNIQUE
constraint on `users.email` turns a duplicate email into the caught
exception `400 'Email already exists'`.  The response carries the token
claims and the `{ id, email, name, role: 'user' }` user object, neither of
which mentions the password. -/
def register (hash : String → String) (email password name : String) (db : DB) :
    DB × Resp AuthResponse :=
  let hashedPassword := hash password
  if (db.users.find? (fun u => u.email == email)).isSome then
    (db, .err 400 "Email already exists")
  else
    let u : User :=
      { id := db.nextUserId, email := email, password := hashedPassword,
        name := name, role := "user", affiliation := none, bio := none,
        profile_picture := none }
    ({ db with users := db.users ++ [u], nextUserId := db.nextUserId + 1 },
     .ok { token := { id := u.id, email := email, role := "user", name := name },
           user := { id := u.id, email := email, name := name, role := "user" } })

/-- `POST /api/auth/login`.  `compare` models `bcrypt.compareSync`.  A missing
user or failed comparison gives `401 'Invalid credentials'`; otherwise the
response carries the token claims and `{ id, email, name, role }`. -/
def login (compare : String → String → Bool) (email password : String) (db : DB) :
    Resp AuthResponse :=
  match db.users.find? (fun u => u.email == email) with
  | none => .err 401 "Invalid credentials"
  | some u =>
    if compare password u.password then
      .ok { token := { id := u.id, email := u.email, role := u.role, name := u.name },
            user := { id := u.id, email := u.email, name := u.name, role := u.role } }
    else .err 401 "Invalid credentials"

/-- `PATCH /api/profile`: update the caller's name/affiliation/bio (and
picture when a file was uploaded), then return the fresh non-password
projection. -/
def updateProfile (caller : Caller) (name : String)
    (affiliation bio profile_picture : Option String) (db : DB) :
    DB × Resp (Option PublicUser) :=
  let upd : User → User := fun u =>
    if u.id == caller.id then
      match profile_picture with
      | some p =>
        { u with name := name, affiliation := affiliation, bio := bio, profile_picture := some p }
      | none => { u with name := name, affiliation := affiliation, bio := bio }
    else u
  let db' := { db with users := db.users.map upd }
  (db', .ok (getMe caller db'))

/-! ## Mutating endpoints -/

/-- `POST /api/conferences` (admin only): insert with status default
`'upcoming'`. -/
def createConference (caller : Caller) (title description date location : String)
    (db : DB) : DB × Resp Nat :=
  if caller.role = "admin" then
    let c : Conference :=
      { id := db.nextConferenceId, title := title, description := description,
        date := date, location := location, status := "upcoming" }
    ({ db with conferences := db.conferences ++ [c],
               nextConferenceId := db.nextConferenceId + 1 }, .ok c.id)
  else (db, .err 403 "Forbidden")

/-- `POST /api/submissions`: insert `(conference_id, user_id, title, abstract,
file_path)` for the caller; `status` takes the schema default `'pending'`. -/
def createSubmission (caller : Caller) (conference_id : Nat)
    (title abstract : String) (file_path : Option String) (db : DB) :
    DB × Resp Nat :=
  let s : Submission :=
    { id := db.nextSubmissionId, conference_id := conference_id,
      user_id := caller.id, title := title, abstract := abstract,
      file_path := file_path, status := "pending" }
  ({ db with submissions := db.submissions ++ [s],
             nextSubmissionId := db.nextSubmissionId + 1 }, .ok s.id)

/-- `PATCH /api/submissions/:id/status` (admin only):
`UPDATE submissions SET status = ? WHERE id = ?` — no validation of the
status value, no existence check, unconditional `{ success: true }`. -/
def setStatus (caller : Caller) (submission_id : Nat) (status : String)
    (db : DB) : DB × Resp Unit :=
  if caller.role = "admin" then
    ({ db with submissions := db.submissions.map (fun s =>
        if s.id == submission_id then { s with status := status } else s) },
     .ok ())
  else (db, .err 403 "Forbidden")

/-- `POST /api/submissions/:id/assign` (admin only): reject with
`400 'Reviewer already assigned'` when a `(submission_id, reviewer_id)` row
already exists, otherwise insert a review row whose `comments` and `score`
columns stay NULL. -/
def assignReviewer (caller : Caller) (submission_id reviewer_id : Nat)
    (db : DB) : DB × Resp Unit :=
  if caller.role = "admin" then
    match db.reviews.find? (fun r =>
        r.submission_id == submission_id && r.reviewer_id == reviewer_id) with
    | some _ => (db, .err 400 "Reviewer already assigned")
    | none =>
      let r : Review :=
        { id := db.nextReviewId, submission_id := submission_id,
          reviewer_id := reviewer_id, comments := none, score := none }
      ({ db with reviews := db.reviews ++ [r], nextReviewId := db.nextReviewId + 1 }, .ok ())
  else (db, .err 403 "Forbidden")

/-- `POST /api/reviews` (admin only): insert
`(submission_id, reviewer_id := caller.id, comments, score)` with NO
duplicate check — nothing stops a second row with the same
`(submission_id, reviewer_id)` pair. -/
def createReview (caller : Caller) (submission_id : Nat)
    (comments : Option String) (score : Option Int) (db : DB) :
    DB × Resp Unit :=
  if caller.role = "admin" then
    let r : Review :=
      { id := db.nextReviewId, submission_id := submission_id,
        reviewer_id := caller.id, comments := comments, score := score }
    ({ db with reviews := db.reviews ++ [r], nextReviewId := db.nextReviewId + 1 }, .ok ())
  else (db, .err 403 "Forbidden")

/-- `POST /api/schedule` (admin only). -/
def createScheduleItem (caller : Caller) (conference_id : Nat)
    (title start_time end_time room : String) (db : DB) : DB × Resp Unit :=
  if caller.role = "admin" then
    let it : ScheduleItem :=
      { id := db.nextScheduleId, conference_id := conference_id, title := title,
        start_time := start_time, end_time := end_time, room := room }
    ({ db with schedule := db.schedule ++ [it], nextScheduleId := db.nextScheduleId + 1 }, .ok ())
  else (db, .err 403 "Forbidden")

/-- `POST /api/documents`:
`targetUserId = req.user.role === 'admin' ? user_id : req.user.id` and
`docType = req.user.role === 'admin' ? 'admin_upload' : 'user_upload'`.
For an admin the owner is whatever `user_id` the body carried (possibly
absent, i.e. `none`) and the type is always `admin_upload`; `status` and
`accepted` take the schema defaults `'pending'` and `0`. -/
def uploadDocument (caller : Caller) (title : String) (file_path : Option String)
    (user_id : Option Nat) (db : DB) : DB × Resp Nat :=
  let targetUserId := if caller.role = "admin" then user_id else some caller.id
  let docType := if caller.role = "admin" then "admin_upload" else "user_upload"
  let d : Document :=
    { id := db.nextDocumentId, user_id := targetUserId, title := title,
      file_path := file_path, status := "pending", type := docType,
      accepted := 0 }
  ({ db with documents := db.documents ++ [d],
             nextDocumentId := db.nextDocumentId + 1 }, .ok d.id)

/-- `PATCH /api/documents/:id/verify` (admin only):
`UPDATE documents SET status = ? WHERE id = ?` — no check that the status is
`verified`/`rejected`, no existence check, unconditional `{ success: true }`. -/
def verifyDocument (caller : Caller) (document_id : Nat) (status : String)
    (db : DB) : DB × Resp Unit :=
  if caller.role = "admin" then
    ({ db with documents := db.documents.map (fun d =>
        if d.id == document_id then { d with status := status } else d) },
     .ok ())
  else (db, .err 403 "Forbidden")

/-- `PATCH /api/documents/:id/accept`:
`UPDATE documents SET accepted = 1 WHERE id = ? AND user_id = ?` followed by
an unconditional `{ success: true }` — no ownership error, no existence
error, no check of how many rows the UPDATE matched. -/
def acceptDocument (caller : Caller) (document_id : Nat) (db : DB) :
    DB × Resp Unit :=
  ({ db with documents := db.documents.map (fun d =>
      if d.id == document_id && d.user_id == some caller.id then
        { d with accepted := 1 } else d) },
   .ok ())

/-! ## The operations of the system as a single step type -/

/-- One state-mutating API call.  The read-only GET endpoints
(`listSubmissions`, `listDocuments`, `getMe`, `listUsers`, the conference
and schedule listings) are pure functions of the database and never change
it, so the reachable states of the system are exactly the states produced
by sequences of these operations. -/
inductive Op where
  | register (email password name : String)
  | updateProfile (caller : Caller) (name : String)
      (affiliation bio profile_picture : Option String)
  | createConference (caller : Caller) (title description date location : String)
  | createSubmission (caller : Caller) (conference_id : Nat)
      (title abstract : String) (file_path : Option String)
  | setStatus (caller : Caller) (submission_id : Nat) (status : String)
  | assignReviewer (caller : Caller) (submission_id reviewer_id : Nat)
  | createReview (caller : Caller) (submission_id : Nat)
      (comments : Option String) (score : Option Int)
  | createScheduleItem (caller : Caller) (conference_id : Nat)
      (title start_time end_time room : String)
  | uploadDocument (caller : Caller) (title : String)
      (file_path : Option String) (user_id : Option Nat)
  | verifyDocument (caller : Caller) (document_id : Nat) (status : String)
  | acceptDocument (caller : Caller) (document_id : Nat)
deriving DecidableEq, Repr

/-- The state transition of one operation (`hash` models `bcrypt.hashSync`
for `register`; every other operation ignores it). -/
def applyOp (hash : String → String) (op : Op) (db : DB) : DB :=
  match op with
  | .register e p n => (register hash e p n db).1
  | .updateProfile c n a b pp => (updateProfile c n a b pp db).1
  | .createConference c t d dt l => (createConference c t d dt l db).1
  | .createSubmission c cid t a f => (createSubmission c cid t a f db).1
  | .setStatus c sid st => (setStatus c sid st db).1
  | .assignReviewer c sid rid => (assignReviewer c sid rid db).1
  | .createReview c sid cm sc => (createReview c sid cm sc db).1
  | .createScheduleItem c cid t s e r => (createScheduleItem c cid t s e r db).1
  | .uploadDocument c t f uid => (uploadDocument c t f uid db).1
  | .verifyDocument c did st => (verifyDocument c did st db).1
  | .acceptDocument c did => (acceptDocument c did db).1

/-! ## Concrete fixtures

Small concrete rows and a sample database used to instantiate the theorems
on explicit inputs.  The callers mirror the seeded accounts of the source. -/

/-- The seeded `admin@confmaster.com` account's JWT payload. -/
def adminCaller : Caller :=
  { id := 1, email := "admin@confmaster.com", role := "admin", name := "System Admin" }

/-- The seeded `user@example.com` account's JWT payload. -/
def userCaller : Caller :=
  { id := 2, email := "user@example.com", role := "user", name := "John Doe" }

/-- The seeded `researcher@uni.edu` account's JWT payload. -/
def otherCaller : Caller :=
  { id := 3, email := "researcher@uni.edu", role := "user", name := "Dr. Sarah Smith" }

/-- A small database: three users, one conference, two submissions (one per
non-admin user), two documents (document 1 is an admin upload addressed to
user 2; document 2 is user 3's self-upload), no reviews yet. -/
def sampleDB : DB :=
  { users :=
      [ { id := 1, email := "admin@confmaster.com", password := "hash1",
          name := "System Admin", role := "admin", affiliation := none,
          bio := none, profile_picture := none },
        { id := 2, email := "user@example.com", password := "pw2",
          name := "John Doe", role := "user",
          affiliation := some "Stanford University", bio := none,
          profile_picture := none },
        { id := 3, email := "researcher@uni.edu", password := "pw3",
          name := "Dr. Sarah Smith", role := "user",
          affiliation := some "MIT Media Lab", bio := none,
          profile_picture := none } ],
    conferences :=
      [ { id := 1, title := "International AI Conference 2026",
          description := "AI/ML", date := "2026-06-15",
          location := "San Francisco, CA", status := "upcoming" } ],
    submissions :=
      [ { id := 1, conference_id := 1, user_id := 2, title := "Paper A",
          abstract := "A", file_path := none, status := "pending" },
        { id := 2, conference_id := 1, user_id := 3, title := "Paper B",
          abstract := "B", file_path := none, status := "pending" } ],
    reviews := [],
    documents :=
      [ { id := 1, user_id := some 2, title := "Certificate",
          file_path := none, status := "pending", type := "admin_upload",
          accepted := 0 },
        { id := 2, user_id := some 3, title := "ID Card", file_path := none,
          status := "pending", type := "user_upload", accepted := 0 } ],
    schedule := [],
    nextUserId := 4, nextConferenceId := 2, nextSubmissionId := 3,
    nextReviewId := 1, nextDocumentId := 3, nextScheduleId := 1 }

/-! ## Claim C1: ownership-scoped listings for non-admins -/

/-- C1: for every non-admin caller, `listSubmissions` and `listDocuments`
take the ownership-filtered query branch: the result is a (narrowed, never
rejected) list of rows, every one of which has `user_id` equal to the
caller's id. -/
theorem c1_ownership_scoped_listings (caller : Caller) (db : DB)
    (h : caller.role ≠ "admin") :
    (∃ rows, listSubmissions caller db = .userRows rows ∧
      ∀ row ∈ rows, row.sub.user_id = caller.id) ∧
    (∃ docs, listDocuments caller db = .userRows docs ∧
      ∀ d ∈ docs, d.user_id = some caller.id) := by
  constructor
  · refine ⟨(db.submissions.filter (fun s => s.user_id == caller.id)).filterMap
      (fun s => (db.conferences.find? (fun c => c.id == s.conference_id)).map
        (fun c => { sub := s, conference_title := c.title })), ?_, ?_⟩
    · rw [listSubmissions, if_neg h]
    · intro row hrow
      rcases List.mem_filterMap.mp hrow with ⟨s, hs, hmap⟩
      rcases Option.map_eq_some'.mp hmap with ⟨c, _, hrow'⟩
      have hsid : s.user_id = caller.id := by simpa using (List.mem_filter.mp hs).2
      rw [← hrow']
      exact hsid
  · refine ⟨db.documents.filter (fun d => d.user_id == some caller.id), ?_, ?_⟩
    · rw [listDocuments, if_neg h]
    · intro d hd
      have hdid := (List.mem_filter.mp hd).2
      exact eq_of_beq hdid

/-- C1 witness: the seeded non-admin user on the sample database. -/
theorem c1_witness :
    userCaller.role ≠ "admin" ∧
    ((∃ rows, listSubmissions userCaller sampleDB = .userRows rows ∧
        ∀ row ∈ rows, row.sub.user_id = userCaller.id) ∧
      (∃ docs, listDocuments userCaller sampleDB = .userRows docs ∧
        ∀ d ∈ docs, d.user_id = some userCaller.id)) :=
  ⟨by decide, c1_ownership_scoped_listings userCaller sampleDB (by decide)⟩

/-! ## Which tables each operation leaves untouched -/

/-- Registration writes only the `users` table. -/
theorem register_keeps (hash : String → String) (e p n : String) (db : DB) :
    (register hash e p n db).1.submissions = db.submissions ∧
    (register hash e p n db).1.reviews = db.reviews ∧
    (register hash e p n db).1.documents = db.documents := by
  unfold register
  split <;> exact ⟨rfl, rfl, rfl⟩

/-- Profile updates write only the `users` table. -/
theorem updateProfile_keeps (c : Caller) (n : String) (a b pp : Option String)
    (db : DB) :
    (updateProfile c n a b pp db).1.submissions = db.submissions ∧
    (updateProfile c n a b pp db).1.reviews = db.reviews ∧
    (updateProfile c n a b pp db).1.documents = db.documents :=
  ⟨rfl, rfl, rfl⟩

/-- Conference creation writes only the `conferences` table. -/
theorem createConference_keeps (c : Caller) (t d dt l : String) (db : DB) :
    (createConference c t d dt l db).1.submissions = db.submissions ∧
    (createConference c t d dt l db).1.reviews = db.reviews ∧
    (createConference c t d dt l db).1.documents = db.documents := by
  unfold createConference
  split <;> exact ⟨rfl, rfl, rfl⟩

/-- Submission creation leaves `reviews` and `documents` untouched. -/
theorem createSubmission_keeps (c : Caller) (cid : Nat) (t a : String)
    (f : Option String) (db : DB) :
    (createSubmission c cid t a f db).1.reviews = db.reviews ∧
    (createSubmission c cid t a f db).1.documents = db.documents :=
  ⟨rfl, rfl⟩

/-- `setStatus` leaves `reviews` and `documents` untouched. -/
theorem setStatus_keeps (c : Caller) (sid : Nat) (st : String) (db : DB) :
    (setStatus c sid st db).1.reviews = db.reviews ∧
    (setStatus c sid st db).1.documents = db.documents := by
  unfold setStatus
  split <;> exact ⟨rfl, rfl⟩

/-- `assignReviewer` leaves `submissions` and `documents` untouched. -/
theorem assignReviewer_keeps (c : Caller) (sid rid : Nat) (db : DB) :
    (assignReviewer c sid rid db).1.submissions = db.submissions ∧
    (assignReviewer c sid rid db).1.documents = db.documents := by
  unfold assignReviewer
  split
  · split <;> exact ⟨rfl, rfl⟩
  · exact ⟨rfl, rfl⟩

/-- `createReview` leaves `submissions` and `documents` untouched. -/
theorem createReview_keeps (c : Caller) (sid : Nat) (cm : Option String)
    (sc : Option Int) (db : DB) :
    (createReview c sid cm sc db).1.submissions = db.submissions ∧
    (createReview c sid cm sc db).1.documents = db.documents := by
  unfold createReview
  split <;> exact ⟨rfl, rfl⟩

/-- Schedule creation writes only the `schedule` table. -/
theorem createScheduleItem_keeps (c : Caller) (cid : Nat)
    (t s e r : String) (db : DB) :
    (createScheduleItem c cid t s e r db).1.submissions = db.submissions ∧
    (createScheduleItem c cid t s e r db).1.reviews = db.reviews ∧
    (createScheduleItem c cid t s e r db).1.documents = db.documents := by
  unfold createScheduleItem
  split <;> exact ⟨rfl, rfl, rfl⟩

/-- Document upload leaves `submissions` and `reviews` untouched. -/
theorem uploadDocument_keeps (c : Caller) (t : String) (f : Option String)
    (uid : Option Nat) (db : DB) :
    (uploadDocument c t f uid db).1.submissions = db.submissions ∧
    (uploadDocument c t f uid db).1.reviews = db.reviews :=
  ⟨rfl, rfl⟩

/-- Document verification leaves `submissions` and `reviews` untouched. -/
theorem verifyDocument_keeps (c : Caller) (did : Nat) (st : String) (db : DB) :
    (verifyDocument c did st db).1.submissions = db.submissions ∧
    (verifyDocument c did st db).1.reviews = db.reviews := by
  unfold verifyDocument
  split <;> exact ⟨rfl, rfl⟩

/-- Document acceptance leaves `submissions` and `reviews` untouched. -/
theorem acceptDocument_keeps (c : Caller) (did : Nat) (db : DB) :
    (acceptDocument c did db).1.submissions = db.submissions ∧
    (acceptDocument c did db).1.reviews = db.reviews :=
  ⟨rfl, rfl⟩

/-! ## Claim C2: uniqueness of `(submission_id, reviewer_id)` pairs -/

/-- No two rows of the `reviews` table share a `(submission_id, reviewer_id)`
pair. -/
def reviewPairsUnique (db : DB) : Prop :=
  (db.reviews.map (fun r => (r.submission_id, r.reviewer_id))).Nodup

instance (db : DB) : Decidable (reviewPairsUnique db) :=
  List.nodupDecidable _

/-- C2 counterexample: the `reviews` schema has no uniqueness constraint and
`POST /api/reviews` inserts unconditionally, so an admin posting two reviews
for the same submission produces two rows with the identical
`(submission_id, reviewer_id)` pair — the claimed invariant does not hold
over all operation sequences. -/
theorem c2_counterexample :
    ¬ reviewPairsUnique
      (applyOp (fun s => s) (.createReview adminCaller 1 none none)
        (applyOp (fun s => s) (.createReview adminCaller 1 none none) sampleDB)) := by
  decide

/-- C2 amended: every operation except `POST /api/reviews` preserves
uniqueness of the `(submission_id, reviewer_id)` pairs; in particular
`assignReviewer` refuses a duplicate before inserting.  Only review
creation can break the invariant. -/
theorem c2_amended_pair_uniqueness_preserved (hash : String → String)
    (op : Op) (db : DB) (hu : reviewPairsUnique db)
    (hop : ∀ c sid cm sc, op ≠ Op.createReview c sid cm sc) :
    reviewPairsUnique (applyOp hash op db) := by
  cases op with
  | register e p n =>
      have h := (register_keeps hash e p n db).2.1
      show ((register hash e p n db).1.reviews.map _).Nodup
      rw [h]; exact hu
  | updateProfile c n a b pp =>
      have h := (updateProfile_keeps c n a b pp db).2.1
      show ((updateProfile c n a b pp db).1.reviews.map _).Nodup
      rw [h]; exact hu
  | createConference c t d dt l =>
      have h := (createConference_keeps c t d dt l db).2.1
      show ((createConference c t d dt l db).1.reviews.map _).Nodup
      rw [h]; exact hu
  | createSubmission c cid t a f =>
      have h := (createSubmission_keeps c cid t a f db).1
      show ((createSubmission c cid t a f db).1.reviews.map _).Nodup
      rw [h]; exact hu
  | setStatus c sid st =>
      have h := (setStatus_keeps c sid st db).1
      show ((setStatus c sid st db).1.reviews.map _).Nodup
      rw [h]; exact hu
  | createReview c sid cm sc => exact absurd rfl (hop c sid cm sc)
  | createScheduleItem c cid t s e r =>
      have h := (createScheduleItem_keeps c cid t s e r db).2.1
      show ((createScheduleItem c cid t s e r db).1.reviews.map _).Nodup
      rw [h]; exact hu
  | uploadDocument c t f uid =>
      have h := (uploadDocument_keeps c t f uid db).2
      show ((uploadDocument c t f uid db).1.reviews.map _).Nodup
      rw [h]; exact hu
  | verifyDocument c did st =>
      have h := (verifyDocument_keeps c did st db).2
      show ((verifyDocument c did st db).1.reviews.map _).Nodup
      rw [h]; exact hu
  | acceptDocument c did =>
      have h := (acceptDocument_keeps c did db).2
      show ((acceptDocument c did db).1.reviews.map _).Nodup
      rw [h]; exact hu
  | assignReviewer c sid rid =>
      show ((assignReviewer c sid rid db).1.reviews.map _).Nodup
      unfold assignReviewer
      by_cases hrole : c.role = "admin"
      · rw [if_pos hrole]
        cases hfind : db.reviews.find? (fun r =>
            r.submission_id == sid && r.reviewer_id == rid) with
        | some r => exact hu
        | none =>
          have hall := List.find?_eq_none.mp hfind
          show ((db.reviews ++ [_]).map _).Nodup
          rw [List.map_append, List.nodup_append]
          refine ⟨hu, List.nodup_singleton _, ?_⟩
          intro x hx hx'
          rcases List.mem_map.mp hx with ⟨r, hr, hpair⟩
          simp only [List.map_cons, List.map_nil, List.mem_singleton] at hx'
          have hxval : x = (sid, rid) := hx'
          rw [hxval] at hpair
          have h1 : r.submission_id = sid := congrArg Prod.fst hpair
          have h2 : r.reviewer_id = rid := congrArg Prod.snd hpair
          exact hall r hr (by simp [h1, h2])
      · rw [if_neg hrole]; exact hu

/-- C2 amended witness: a `setStatus` call on the sample database, which is
not a review creation and keeps the (empty) review table duplicate-free. -/
theorem c2_amended_witness :
    reviewPairsUnique sampleDB ∧
    (∀ c sid cm sc, Op.setStatus adminCaller 1 "accepted" ≠ Op.createReview c sid cm sc) ∧
    reviewPairsUnique
      (applyOp (fun s => s) (.setStatus adminCaller 1 "accepted") sampleDB) :=
  ⟨by decide, fun _ _ _ _ h => Op.noConfusion h,
   c2_amended_pair_uniqueness_preserved (fun s => s) _ sampleDB (by decide)
     (fun _ _ _ _ h => Op.noConfusion h)⟩

/-! ## Claim C3: double assignment conflicts, exactly one row persists -/

/-- The review row a successful `assignReviewer` call inserts: fresh id,
the given pair, NULL `comments` and `score`. -/
def assignedRow (db : DB) (S R : Nat) : Review :=
  { id := db.nextReviewId, submission_id := S, reviewer_id := R,
    comments := none, score := none }

/-- C3: starting from a state with no `(S, R)` assignment, an admin's first
`assignReviewer` call succeeds, the second yields the conflict response
`400 'Reviewer already assigned'`, and exactly one review row for `(S, R)`
persists, with `comments` and `score` NULL. -/
theorem c3_assign_twice_conflict (caller : Caller) (S R : Nat) (db : DB)
    (hadmin : caller.role = "admin")
    (hnone : db.reviews.find? (fun r =>
      r.submission_id == S && r.reviewer_id == R) = none) :
    (assignReviewer caller S R db).2 = .ok () ∧
    (assignReviewer caller S R (assignReviewer caller S R db).1).2 =
      .err 400 "Reviewer already assigned" ∧
    (assignReviewer caller S R (assignReviewer caller S R db).1).1.reviews.filter
        (fun r => r.submission_id == S && r.reviewer_id == R) =
      [{ id := db.nextReviewId, submission_id := S, reviewer_id := R,
         comments := none, score := none }] := by
  have hstep : assignReviewer caller S R db =
      ({ db with reviews := db.reviews ++ [assignedRow db S R],
                 nextReviewId := db.nextReviewId + 1 }, .ok ()) := by
    unfold assignReviewer
    rw [if_pos hadmin, hnone]
    rfl
  have hrev1 : (assignReviewer caller S R db).1.reviews =
      db.reviews ++ [assignedRow db S R] := by rw [hstep]
  have hfind2 : (db.reviews ++ [assignedRow db S R]).find? (fun r =>
      r.submission_id == S && r.reviewer_id == R) = some (assignedRow db S R) := by
    rw [List.find?_append, hnone]
    simp [assignedRow]
  have hdup : ∀ db1 : DB, db1.reviews = db.reviews ++ [assignedRow db S R] →
      assignReviewer caller S R db1 = (db1, .err 400 "Reviewer already assigned") := by
    intro db1 h1
    unfold assignReviewer
    rw [if_pos hadmin, h1, hfind2]
  have hsecond := hdup _ hrev1
  have hfil : db.reviews.filter (fun r =>
      r.submission_id == S && r.reviewer_id == R) = [] := by
    rw [List.filter_eq_nil_iff]
    intro r hr
    exact List.find?_eq_none.mp hnone r hr
  refine ⟨by rw [hstep], by rw [hsecond], ?_⟩
  rw [hsecond]
  show (assignReviewer caller S R db).1.reviews.filter _ = _
  rw [hrev1, List.filter_append, hfil]
  simp [assignedRow]

/-- C3 witness: assigning reviewer 3 to submission 1 twice on the sample
database. -/
theorem c3_witness :
    adminCaller.role = "admin" ∧
    sampleDB.reviews.find? (fun r =>
      r.submission_id == 1 && r.reviewer_id == 3) = none ∧
    ((assignReviewer adminCaller 1 3 sampleDB).2 = .ok () ∧
      (assignReviewer adminCaller 1 3 (assignReviewer adminCaller 1 3 sampleDB).1).2 =
        .err 400 "Reviewer already assigned" ∧
      (assignReviewer adminCaller 1 3
          (assignReviewer adminCaller 1 3 sampleDB).1).1.reviews.filter
          (fun r => r.submission_id == 1 && r.reviewer_id == 3) =
        [{ id := sampleDB.nextReviewId, submission_id := 1, reviewer_id := 3,
           comments := none, score := none }]) :=
  ⟨rfl, by decide,
   c3_assign_twice_conflict adminCaller 1 3 sampleDB rfl (by decide)⟩

/-! ## Claim C4: non-owner `accept` -/

/-- C4 counterexample: document 1 belongs to user 2, yet when user 3 calls
`accept` on it the route answers `{ success: true }` (HTTP 200) — it never
returns `NotFound`, because the handler runs the ownership-scoped UPDATE
and then unconditionally reports success.  The state is unchanged, but the
claimed `NotFound` response does not exist. -/
theorem c4_counterexample :
    (acceptDocument otherCaller 1 sampleDB).2 = .ok () ∧
    (acceptDocument otherCaller 1 sampleDB).1 = sampleDB ∧
    ∀ code msg, (acceptDocument otherCaller 1 sampleDB).2 ≠ Resp.err code msg := by
  refine ⟨rfl, by decide, ?_⟩
  intro code msg h
  exact Resp.noConfusion h

/-- C4 amended: a caller who owns no document with the requested id gets a
success response (never `NotFound`, never `Forbidden`) and the database —
in particular every document's `accepted` field — is completely unchanged,
because the UPDATE is scoped to `(id, user_id)` and matches zero rows. -/
theorem c4_amended_nonowner_accept_silent_noop (caller : Caller) (did : Nat)
    (db : DB)
    (h : ∀ d ∈ db.documents, d.id = did → d.user_id ≠ some caller.id) :
    acceptDocument caller did db = (db, .ok ()) := by
  unfold acceptDocument
  have hmap : ∀ l : List Document,
      (∀ d ∈ l, d.id = did → d.user_id ≠ some caller.id) →
      l.map (fun d => if d.id == did && d.user_id == some caller.id then
        { d with accepted := 1 } else d) = l := by
    intro l hl
    induction l with
    | nil => rfl
    | cons a t ih =>
      rw [List.map_cons]
      have hconda : (a.id == did && a.user_id == some caller.id) = false := by
        by_cases hdid : a.id = did
        · simp [hl a (List.mem_cons_self a t) hdid]
        · simp [hdid]
      rw [if_neg (by simp [hconda]),
          ih (fun d hd hdid => hl d (List.mem_cons_of_mem a hd) hdid)]
  rw [hmap db.documents h]

/-- C4 amended witness: user 3 accepting user 2's document 1 on the sample
database. -/
theorem c4_amended_witness :
    (∀ d ∈ sampleDB.documents, d.id = 1 → d.user_id ≠ some otherCaller.id) ∧
    acceptDocument otherCaller 1 sampleDB = (sampleDB, .ok ()) :=
  ⟨by decide, c4_amended_nonowner_accept_silent_noop otherCaller 1 sampleDB (by decide)⟩

/-! ## Claim C5: `setStatus` accepts values outside the enum -/

/-- C5 counterexample: an admin setting submission 1's status to the
out-of-enum value `"bogus"` receives `{ success: true }` — not
`InvalidStatus` — and the persisted status changes to `"bogus"`. -/
theorem c5_counterexample :
    (setStatus adminCaller 1 "bogus" sampleDB).2 = .ok () ∧
    (setStatus adminCaller 1 "bogus" sampleDB).1.submissions.map
      (fun s => s.status) = ["bogus", "pending"] ∧
    (setStatus adminCaller 1 "bogus" sampleDB).1.submissions ≠
      sampleDB.submissions := by
  refine ⟨rfl, by decide, by decide⟩

/-- For an admin caller `setStatus` always succeeds and writes the supplied
string to exactly the submissions with the requested id. -/
theorem setStatus_admin_effect (caller : Caller) (sid : Nat)
    (st : String) (db : DB) (hadmin : caller.role = "admin") :
    (setStatus caller sid st db).2 = .ok () ∧
    ∀ s ∈ (setStatus caller sid st db).1.submissions,
      (s.id = sid → s.status = st) ∧ (s.id ≠ sid → s ∈ db.submissions) := by
  unfold setStatus
  rw [if_pos hadmin]
  refine ⟨rfl, ?_⟩
  intro s hs
  rcases List.mem_map.mp hs with ⟨s0, hs0, hmk⟩
  by_cases h0 : s0.id = sid
  · rw [if_pos (by simpa using h0)] at hmk
    constructor
    · intro _
      rw [← hmk]
    · intro hne
      exact absurd (by rw [← hmk]; exact h0) hne
  · rw [if_neg (by simpa using h0)] at hmk
    rw [← hmk]
    exact ⟨fun hid => absurd hid h0, fun _ => hs0⟩

/-- C5 amended: `setStatus` performs no validation of the status value at
all: for an admin caller it always answers `{ success: true }`, writing the
given string — whatever it is — to every submission with the requested id
and leaving all other submissions untouched. -/
theorem c5_amended_no_status_validation (caller : Caller) (sid : Nat)
    (st : String) (db : DB) (hadmin : caller.role = "admin") :
    (setStatus caller sid st db).2 = .ok () ∧
    ∀ s ∈ (setStatus caller sid st db).1.submissions,
      (s.id = sid → s.status = st) ∧ (s.id ≠ sid → s ∈ db.submissions) :=
  setStatus_admin_effect caller sid st db hadmin

/-- C5 amended witness: the admin writing `"bogus"` to submission 1 of the
sample database. -/
theorem c5_amended_witness :
    adminCaller.role = "admin" ∧
    ((setStatus adminCaller 1 "bogus" sampleDB).2 = .ok () ∧
      ∀ s ∈ (setStatus adminCaller 1 "bogus" sampleDB).1.submissions,
        (s.id = 1 → s.status = "bogus") ∧ (s.id ≠ 1 → s ∈ sampleDB.submissions)) :=
  ⟨rfl, c5_amended_no_status_validation adminCaller 1 "bogus" sampleDB rfl⟩

/-! ## Claim C6: `verify` error behavior -/

/-- C6 counterexample: the admin-only gate holds, but the other two claimed
failures do not exist.  The sample database has no document 99, and
`"bogus"` is outside `{verified, rejected}`, yet an admin's verify call
answers `{ success: true }` with the state unchanged (no `NotFound`, no
`InvalidStatus`); on an existing document the bogus status is even written. -/
theorem c6_counterexample :
    verifyDocument adminCaller 99 "bogus" sampleDB = (sampleDB, .ok ()) ∧
    (verifyDocument adminCaller 1 "bogus" sampleDB).1.documents.map
      (fun d => d.status) = ["bogus", "pending"] := by
  refine ⟨by decide, by decide⟩

/-- C6 amended: `verify` is admin-gated — a non-admin gets `403 Forbidden`
and no state change — but for an admin it always succeeds: it writes the
given status string verbatim to every document with the requested id
(a silent no-op when no such document exists) and performs neither a
`NotFound` nor an `InvalidStatus` check. -/
theorem c6_amended_verify_admin_gate_only (caller : Caller) (did : Nat)
    (st : String) (db : DB) :
    (caller.role ≠ "admin" →
      verifyDocument caller did st db = (db, .err 403 "Forbidden")) ∧
    (caller.role = "admin" →
      (verifyDocument caller did st db).2 = .ok () ∧
      ∀ d ∈ (verifyDocument caller did st db).1.documents,
        (d.id = did → d.status = st) ∧ (d.id ≠ did → d ∈ db.documents)) := by
  constructor
  · intro h
    unfold verifyDocument
    rw [if_neg h]
  · intro h
    unfold verifyDocument
    rw [if_pos h]
    refine ⟨rfl, ?_⟩
    intro d hd
    rcases List.mem_map.mp hd with ⟨d0, hd0, hmk⟩
    by_cases h0 : d0.id = did
    · rw [if_pos (by simpa using h0)] at hmk
      constructor
      · intro _
        rw [← hmk]
      · intro hne
        exact absurd (by rw [← hmk]; exact h0) hne
    · rw [if_neg (by simpa using h0)] at hmk
      rw [← hmk]
      exact ⟨fun hid => absurd hid h0, fun _ => hd0⟩

/-- C6 amended witness: a non-admin is refused with `Forbidden`, and the
admin's write of `"verified"` to document 1 succeeds. -/
theorem c6_amended_witness :
    verifyDocument userCaller 1 "verified" sampleDB =
      (sampleDB, .err 403 "Forbidden") ∧
    (verifyDocument adminCaller 1 "verified" sampleDB).2 = .ok () :=
  ⟨(c6_amended_verify_admin_gate_only userCaller 1 "verified" sampleDB).1
      (by decide),
   ((c6_amended_verify_admin_gate_only adminCaller 1 "verified" sampleDB).2
      rfl).1⟩

/-! ## Claim C7: `uploadDocument` ownership and type -/

/-- C7 counterexample: an admin uploading WITHOUT a `target_user_id` does
not get a self-owned `user_upload` document, as the claim's "otherwise"
branch asserts: the handler still takes the admin branch, so the created
document has `type = admin_upload` and a NULL owner. -/
theorem c7_counterexample :
    ∃ d, (uploadDocument adminCaller "Cert" none none sampleDB).1.documents =
        sampleDB.documents ++ [d] ∧
      d.type = "admin_upload" ∧ d.user_id = none ∧
      ¬ (d.user_id = some adminCaller.id ∧ d.type = "user_upload") := by
  refine ⟨{ id := 3, user_id := none, title := "Cert", file_path := none,
            status := "pending", type := "admin_upload", accepted := 0 },
    by decide, rfl, rfl, by decide⟩

/-- C7 amended: `uploadDocument` appends exactly one document with
`status = pending` and `accepted = 0`; an admin's document is owned by the
request's `user_id` field — whatever it is, including absent — with
`type = admin_upload`, and a non-admin's document is owned by the caller
with `type = user_upload`. -/
theorem c7_amended_upload_owner_type (caller : Caller) (title : String)
    (file : Option String) (target : Option Nat) (db : DB) :
    ∃ d, (uploadDocument caller title file target db).1.documents =
        db.documents ++ [d] ∧
      d.status = "pending" ∧ d.accepted = 0 ∧
      (caller.role = "admin" → d.user_id = target ∧ d.type = "admin_upload") ∧
      (caller.role ≠ "admin" →
        d.user_id = some caller.id ∧ d.type = "user_upload") := by
  refine ⟨_, rfl, rfl, rfl, ?_, ?_⟩
  · intro h
    constructor
    · show (if caller.role = "admin" then target else some caller.id) = target
      rw [if_pos h]
    · show (if caller.role = "admin" then "admin_upload" else "user_upload") =
        "admin_upload"
      rw [if_pos h]
  · intro h
    constructor
    · show (if caller.role = "admin" then target else some caller.id) =
        some caller.id
      rw [if_neg h]
    · show (if caller.role = "admin" then "admin_upload" else "user_upload") =
        "user_upload"
      rw [if_neg h]

/-- C7 amended witness: the admin uploading for target user 2. -/
theorem c7_amended_witness :
    ∃ d, (uploadDocument adminCaller "Report" none (some 2) sampleDB).1.documents =
        sampleDB.documents ++ [d] ∧
      d.status = "pending" ∧ d.accepted = 0 ∧
      (adminCaller.role = "admin" → d.user_id = some 2 ∧ d.type = "admin_upload") ∧
      (adminCaller.role ≠ "admin" →
        d.user_id = some adminCaller.id ∧ d.type = "user_upload") :=
  c7_amended_upload_owner_type adminCaller "Report" none (some 2) sampleDB

/-! ## Claim C8: acceptance is one-way -/

/-- Accepting is idempotent on the stored state: running the
ownership-scoped `UPDATE ... SET accepted = 1` twice is the same as running
it once, and the response is always `{ success: true }`. -/
theorem acceptDocument_idempotent (caller : Caller) (did : Nat) (db : DB) :
    acceptDocument caller did (acceptDocument caller did db).1 =
      ((acceptDocument caller did db).1, .ok ()) := by
  unfold acceptDocument
  refine congrArg (fun l => ({ db with documents := l }, Resp.ok ())) ?_
  rw [List.map_map]
  apply List.map_congr_left
  intro d _
  by_cases hc : (d.id == did && d.user_id == some caller.id) = true
  · simp only [Function.comp_apply, hc, if_true]
  · simp only [Function.comp_apply, if_neg hc]

/-- Every operation of the system preserves "this document id has
`accepted = 1`": no route ever writes `accepted = 0` to an existing row. -/
theorem accepted_never_reset (hash : String → String) (op : Op) (db : DB)
    (e : Document) (he : e ∈ db.documents) (hacc : e.accepted = 1) :
    ∃ e' ∈ (applyOp hash op db).documents, e'.id = e.id ∧ e'.accepted = 1 := by
  cases op with
  | register a b c =>
      refine ⟨e, ?_, rfl, hacc⟩
      rw [show (applyOp hash (.register a b c) db).documents = db.documents from
        (register_keeps hash a b c db).2.2]
      exact he
  | updateProfile c n a b pp =>
      refine ⟨e, ?_, rfl, hacc⟩
      rw [show (applyOp hash (.updateProfile c n a b pp) db).documents =
        db.documents from (updateProfile_keeps c n a b pp db).2.2]
      exact he
  | createConference c t d dt l =>
      refine ⟨e, ?_, rfl, hacc⟩
      rw [show (applyOp hash (.createConference c t d dt l) db).documents =
        db.documents from (createConference_keeps c t d dt l db).2.2]
      exact he
  | createSubmission c cid t a f =>
      refine ⟨e, ?_, rfl, hacc⟩
      rw [show (applyOp hash (.createSubmission c cid t a f) db).documents =
        db.documents from (createSubmission_keeps c cid t a f db).2]
      exact he
  | setStatus c sid st =>
      refine ⟨e, ?_, rfl, hacc⟩
      rw [show (applyOp hash (.setStatus c sid st) db).documents =
        db.documents from (setStatus_keeps c sid st db).2]
      exact he
  | assignReviewer c sid rid =>
      refine ⟨e, ?_, rfl, hacc⟩
      rw [show (applyOp hash (.assignReviewer c sid rid) db).documents =
        db.documents from (assignReviewer_keeps c sid rid db).2]
      exact he
  | createReview c sid cm sc =>
      refine ⟨e, ?_, rfl, hacc⟩
      rw [show (applyOp hash (.createReview c sid cm sc) db).documents =
        db.documents from (createReview_keeps c sid cm sc db).2]
      exact he
  | createScheduleItem c cid t s e' r =>
      refine ⟨e, ?_, rfl, hacc⟩
      rw [show (applyOp hash (.createScheduleItem c cid t s e' r) db).documents =
        db.documents from (createScheduleItem_keeps c cid t s e' r db).2.2]
      exact he
  | uploadDocument c t f uid =>
      refine ⟨e, ?_, rfl, hacc⟩
      show e ∈ (uploadDocument c t f uid db).1.documents
      exact List.mem_append_left _ he
  | verifyDocument c did st =>
      show ∃ e' ∈ (verifyDocument c did st db).1.documents, _
      unfold verifyDocument
      by_cases hrole : c.role = "admin"
      · rw [if_pos hrole]
        refine ⟨if e.id == did then { e with status := st } else e,
          List.mem_map.mpr ⟨e, he, rfl⟩, ?_⟩
        by_cases hc : (e.id == did) = true
        · rw [if_pos hc]
          exact ⟨rfl, hacc⟩
        · rw [if_neg hc]
          exact ⟨rfl, hacc⟩
      · rw [if_neg hrole]
        exact ⟨e, he, rfl, hacc⟩
  | acceptDocument c did =>
      show ∃ e' ∈ (acceptDocument c did db).1.documents, _
      unfold acceptDocument
      refine ⟨if e.id == did && e.user_id == some c.id then
          { e with accepted := 1 } else e,
        List.mem_map.mpr ⟨e, he, rfl⟩, ?_⟩
      by_cases hc : (e.id == did && e.user_id == some c.id) = true
      · rw [if_pos hc]
        exact ⟨rfl, rfl⟩
      · rw [if_neg hc]
        exact ⟨rfl, hacc⟩

/-- C8: for a document the caller owns, calling `accept` twice leaves
`accepted = 1`, the second call succeeds with no error and no state change
(idempotence), and no operation of the system ever resets `accepted` from
`1` back to `0` for an existing document id. -/
theorem c8_accept_one_way (caller : Caller) (did : Nat) (db : DB)
    (d : Document) (hd : d ∈ db.documents) (hid : d.id = did)
    (hown : d.user_id = some caller.id) :
    acceptDocument caller did (acceptDocument caller did db).1 =
      ((acceptDocument caller did db).1, .ok ()) ∧
    (∃ d' ∈ (acceptDocument caller did db).1.documents,
      d'.id = did ∧ d'.accepted = 1) ∧
    (∀ (hash : String → String) (op : Op) (db' : DB) (e : Document),
      e ∈ db'.documents → e.accepted = 1 →
      ∃ e' ∈ (applyOp hash op db').documents, e'.id = e.id ∧ e'.accepted = 1) := by
  refine ⟨acceptDocument_idempotent caller did db, ?_,
    fun hash op db' e he hacc => accepted_never_reset hash op db' e he hacc⟩
  show ∃ d' ∈ (acceptDocument caller did db).1.documents, _
  unfold acceptDocument
  refine ⟨{ d with accepted := 1 }, ?_, hid, rfl⟩
  have hc : (d.id == did && d.user_id == some caller.id) = true := by
    simp [hid, hown]
  exact List.mem_map.mpr ⟨d, hd, by rw [if_pos hc]⟩

/-- C8 witness: user 2 accepting their admin-issued document 1 twice on the
sample database. -/
theorem c8_witness :
    (({ id := 1, user_id := some 2, title := "Certificate", file_path := none,
        status := "pending", type := "admin_upload", accepted := 0 } : Document)
        ∈ sampleDB.documents ∧
      (1 : Nat) = 1 ∧ (some 2 : Option Nat) = some userCaller.id) ∧
    (acceptDocument userCaller 1 (acceptDocument userCaller 1 sampleDB).1 =
        ((acceptDocument userCaller 1 sampleDB).1, .ok ()) ∧
      (∃ d' ∈ (acceptDocument userCaller 1 sampleDB).1.documents,
        d'.id = 1 ∧ d'.accepted = 1) ∧
      (∀ (hash : String → String) (op : Op) (db' : DB) (e : Document),
        e ∈ db'.documents → e.accepted = 1 →
        ∃ e' ∈ (applyOp hash op db').documents, e'.id = e.id ∧ e'.accepted = 1)) :=
  ⟨⟨by decide, rfl, by decide⟩,
   c8_accept_one_way userCaller 1 sampleDB
     { id := 1, user_id := some 2, title := "Certificate", file_path := none,
       status := "pending", type := "admin_upload", accepted := 0 }
     (by decide) (by decide) (by decide)⟩

/-! ## Claim C9: submission status monotonicity -/

/-- C9 counterexample: `setStatus` writes whatever value an admin supplies,
so a submission that has left `pending` can be moved straight back:
submission 1 goes `pending → under_review → pending` in two admin calls. -/
theorem c9_counterexample :
    (setStatus adminCaller 1 "under_review" sampleDB).1.submissions.map
      (fun s => s.status) = ["under_review", "pending"] ∧
    (setStatus adminCaller 1 "pending"
        (setStatus adminCaller 1 "under_review" sampleDB).1).1.submissions.map
      (fun s => s.status) = ["pending", "pending"] := by
  refine ⟨by decide, by decide⟩

/-- C9 amended: submissions are created in state `pending`, `setStatus` is
the only operation that changes any submission's status, and for an admin
it writes the supplied value unconditionally — including `"pending"` — so
the transitions of the claimed state machine are not enforced and a
submission can return to `pending`. -/
theorem c9_amended_status_unrestricted (hash : String → String)
    (caller : Caller) (cid : Nat) (t a : String) (f : Option String)
    (sid : Nat) (db : DB) (op : Op) (s : Submission)
    (hadmin : caller.role = "admin")
    (hop : ∀ c i st, op ≠ Op.setStatus c i st) (hs : s ∈ db.submissions) :
    (∃ s0, (createSubmission caller cid t a f db).1.submissions =
      db.submissions ++ [s0] ∧ s0.status = "pending") ∧
    (∀ s' ∈ (setStatus caller sid "pending" db).1.submissions,
      s'.id = sid → s'.status = "pending") ∧
    (∃ s' ∈ (applyOp hash op db).submissions,
      s'.id = s.id ∧ s'.status = s.status) := by
  refine ⟨⟨_, rfl, rfl⟩, ?_, ?_⟩
  · intro s' hs' hid
    exact ((setStatus_admin_effect caller sid "pending" db hadmin).2
      s' hs').1 hid
  · cases op with
    | register a' b' c' =>
        refine ⟨s, ?_, rfl, rfl⟩
        rw [show (applyOp hash (.register a' b' c') db).submissions =
          db.submissions from (register_keeps hash a' b' c' db).1]
        exact hs
    | updateProfile c' n' a' b' pp =>
        refine ⟨s, ?_, rfl, rfl⟩
        rw [show (applyOp hash (.updateProfile c' n' a' b' pp) db).submissions =
          db.submissions from (updateProfile_keeps c' n' a' b' pp db).1]
        exact hs
    | createConference c' t' d' dt' l' =>
        refine ⟨s, ?_, rfl, rfl⟩
        rw [show (applyOp hash (.createConference c' t' d' dt' l') db).submissions =
          db.submissions from (createConference_keeps c' t' d' dt' l' db).1]
        exact hs
    | createSubmission c' cid' t' a' f' =>
        refine ⟨s, ?_, rfl, rfl⟩
        show s ∈ (createSubmission c' cid' t' a' f' db).1.submissions
        exact List.mem_append_left _ hs
    | setStatus c' sid' st' => exact absurd rfl (hop c' sid' st')
    | assignReviewer c' sid' rid' =>
        refine ⟨s, ?_, rfl, rfl⟩
        rw [show (applyOp hash (.assignReviewer c' sid' rid') db).submissions =
          db.submissions from (assignReviewer_keeps c' sid' rid' db).1]
        exact hs
    | createReview c' sid' cm' sc' =>
        refine ⟨s, ?_, rfl, rfl⟩
        rw [show (applyOp hash (.createReview c' sid' cm' sc') db).submissions =
          db.submissions from (createReview_keeps c' sid' cm' sc' db).1]
        exact hs
    | createScheduleItem c' cid' t' st' e' r' =>
        refine ⟨s, ?_, rfl, rfl⟩
        rw [show (applyOp hash (.createScheduleItem c' cid' t' st' e' r') db).submissions =
          db.submissions from (createScheduleItem_keeps c' cid' t' st' e' r' db).1]
        exact hs
    | uploadDocument c' t' f' uid' =>
        refine ⟨s, ?_, rfl, rfl⟩
        rw [show (applyOp hash (.uploadDocument c' t' f' uid') db).submissions =
          db.submissions from (uploadDocument_keeps c' t' f' uid' db).1]
        exact hs
    | verifyDocument c' did' st' =>
        refine ⟨s, ?_, rfl, rfl⟩
        rw [show (applyOp hash (.verifyDocument c' did' st') db).submissions =
          db.submissions from (verifyDocument_keeps c' did' st' db).1]
        exact hs
    | acceptDocument c' did' =>
        refine ⟨s, ?_, rfl, rfl⟩
        rw [show (applyOp hash (.acceptDocument c' did') db).submissions =
          db.submissions from (acceptDocument_keeps c' did' db).1]
        exact hs

/-- C9 amended witness: the admin resetting submission 1 of the sample
database to `"pending"`, with a document acceptance as the non-`setStatus`
operation. -/
theorem c9_amended_witness :
    adminCaller.role = "admin" ∧
    (∀ c i st, Op.acceptDocument userCaller 1 ≠ Op.setStatus c i st) ∧
    (({ id := 1, conference_id := 1, user_id := 2, title := "Paper A",
        abstract := "A", file_path := none, status := "pending" } : Submission)
        ∈ sampleDB.submissions) ∧
    ((∃ s0, (createSubmission adminCaller 1 "T" "A" none sampleDB).1.submissions =
        sampleDB.submissions ++ [s0] ∧ s0.status = "pending") ∧
      (∀ s' ∈ (setStatus adminCaller 1 "pending" sampleDB).1.submissions,
        s'.id = 1 → s'.status = "pending") ∧
      (∃ s' ∈ (applyOp (fun x => x) (.acceptDocument userCaller 1)
          sampleDB).submissions,
        s'.id = 1 ∧ s'.status = "pending")) :=
  ⟨rfl, fun _ _ _ h => Op.noConfusion h, by decide,
   c9_amended_status_unrestricted (fun x => x) adminCaller 1 "T" "A" none 1
     sampleDB (.acceptDocument userCaller 1)
     { id := 1, conference_id := 1, user_id := 2, title := "Paper A",
       abstract := "A", file_path := none, status := "pending" }
     rfl (fun _ _ _ h => Op.noConfusion h) (by decide)⟩

/-! ## Claim C10: no read exposes a stored password hash -/

/-- Rewrite every stored password by an arbitrary function, leaving every
other column of every table untouched.  An endpoint whose output is
invariant under every such rewrite cannot be exposing password data. -/
def mapPasswords (f : User → String) (db : DB) : DB :=
  { db with users := db.users.map (fun u => { u with password := f u }) }

/-- Finding a user by id is insensitive to password rewriting, up to the
rewritten row. -/
theorem find?_id_mapPasswords (f : User → String) (l : List User) (i : Nat) :
    (l.map (fun u => { u with password := f u })).find? (fun u => u.id == i) =
      (l.find? (fun u => u.id == i)).map (fun u => { u with password := f u }) := by
  induction l with
  | nil => rfl
  | cons a t ih =>
    rw [List.map_cons, List.find?_cons, List.find?_cons]
    by_cases h : (a.id == i) = true
    · rw [h]
      rfl
    · rw [Bool.not_eq_true] at h
      rw [h]
      exact ih

/-- Finding a user by email is insensitive to password rewriting, up to the
rewritten row. -/
theorem find?_email_mapPasswords (f : User → String) (l : List User) (e : String) :
    (l.map (fun u => { u with password := f u })).find? (fun u => u.email == e) =
      (l.find? (fun u => u.email == e)).map (fun u => { u with password := f u }) := by
  induction l with
  | nil => rfl
  | cons a t ih =>
    rw [List.map_cons, List.find?_cons, List.find?_cons]
    by_cases h : (a.email == e) = true
    · rw [h]
      rfl
    · rw [Bool.not_eq_true] at h
      rw [h]
      exact ih

/-- C10: the user data returned by the read endpoints carries no password:
`GET /api/auth/me` and `GET /api/users` return outputs that are invariant
under arbitrary rewriting of every stored password; the response of
`POST /api/auth/register` is likewise password-rewrite-invariant; and any
successful `POST /api/auth/login` returns a token payload and user object
built only from the found user's `id`, `email`, `name` and `role` — its
stored password hash appears in none of them. -/
theorem c10_no_password_exposure (f : User → String) (caller : Caller)
    (hash : String → String) (e p n : String)
    (compare : String → String → Bool) (le lp : String)
    (db : DB) (resp : AuthResponse)
    (hlogin : login compare le lp db = .ok resp) :
    getMe caller (mapPasswords f db) = getMe caller db ∧
    listUsers caller (mapPasswords f db) = listUsers caller db ∧
    (register hash e p n (mapPasswords f db)).2 = (register hash e p n db).2 ∧
    ∃ u, u ∈ db.users ∧ u.email = le ∧
      resp.user = { id := u.id, email := u.email, name := u.name, role := u.role } ∧
      resp.token = { id := u.id, email := u.email, role := u.role, name := u.name } := by
  refine ⟨?_, ?_, ?_, ?_⟩
  · show ((mapPasswords f db).users.find? (fun u => u.id == caller.id)).map
        publicView = _
    rw [show (mapPasswords f db).users =
      db.users.map (fun u => { u with password := f u }) from rfl]
    rw [find?_id_mapPasswords, Option.map_map]
    rfl
  · unfold listUsers
    by_cases h : caller.role = "admin"
    · rw [if_pos h, if_pos h]
      show Resp.ok ((db.users.map (fun u => { u with password := f u })).map
        publicView) = _
      rw [List.map_map]
      rfl
    · rw [if_neg h, if_neg h]
  · unfold register
    rw [show (mapPasswords f db).users =
      db.users.map (fun u => { u with password := f u }) from rfl]
    rw [find?_email_mapPasswords]
    have hsome : ((db.users.find? (fun u => u.email == e)).map
        (fun u => { u with password := f u })).isSome =
        (db.users.find? (fun u => u.email == e)).isSome := by
      cases db.users.find? (fun u => u.email == e) <;> rfl
    by_cases h : (db.users.find? (fun u => u.email == e)).isSome
    · rw [if_pos (by rw [hsome]; exact h), if_pos h]
    · rw [if_neg (by rw [hsome]; exact h), if_neg h]
      rfl
  · cases hfind : db.users.find? (fun u => u.email == le) with
    | none =>
      have herr : login compare le lp db = .err 401 "Invalid credentials" := by
        unfold login
        rw [hfind]
      rw [herr] at hlogin
      exact absurd hlogin (fun h => Resp.noConfusion h)
    | some u =>
      have hmem : u ∈ db.users := List.mem_of_find?_eq_some hfind
      have hemail : u.email = le := by
        simpa using List.find?_some hfind
      by_cases hcmp : compare lp u.password = true
      · have hok : login compare le lp db =
            .ok { token := { id := u.id, email := u.email, role := u.role,
                             name := u.name },
                  user := { id := u.id, email := u.email, name := u.name,
                            role := u.role } } := by
          unfold login
          rw [hfind]
          show (if compare lp u.password = true then _ else _) = _
          rw [if_pos hcmp]
        rw [hok] at hlogin
        injection hlogin with hresp
        refine ⟨u, hmem, hemail, ?_, ?_⟩
        · rw [← hresp]
        · rw [← hresp]
      · have herr : login compare le lp db = .err 401 "Invalid credentials" := by
          unfold login
          rw [hfind]
          show (if compare lp u.password = true then _ else _) = _
          rw [if_neg hcmp]
        rw [herr] at hlogin
        exact absurd hlogin (fun h => Resp.noConfusion h)

/-- C10 witness: rewriting every password to `"X"` on the sample database
leaves the read endpoints' outputs unchanged, and user 2's successful login
response exists concretely. -/
theorem c10_witness :
    login (fun a b => a == b) "user@example.com" "pw2" sampleDB =
      .ok { token := { id := 2, email := "user@example.com", role := "user",
                       name := "John Doe" },
            user := { id := 2, email := "user@example.com", name := "John Doe",
                      role := "user" } } ∧
    (getMe userCaller (mapPasswords (fun _ => "X") sampleDB) =
        getMe userCaller sampleDB ∧
      listUsers userCaller (mapPasswords (fun _ => "X") sampleDB) =
        listUsers userCaller sampleDB ∧
      (register (fun s => s) "new@x.y" "secret" "N"
          (mapPasswords (fun _ => "X") sampleDB)).2 =
        (register (fun s => s) "new@x.y" "secret" "N" sampleDB).2 ∧
      ∃ u, u ∈ sampleDB.users ∧ u.email = "user@example.com" ∧
        ({ token := { id := 2, email := "user@example.com", role := "user",
                      name := "John Doe" },
           user := { id := 2, email := "user@example.com", name := "John Doe",
                     role := "user" } } : AuthResponse).user =
          { id := u.id, email := u.email, name := u.name, role := u.role } ∧
        ({ token := { id := 2, email := "user@example.com", role := "user",
                      name := "John Doe" },
           user := { id := 2, email := "user@example.com", name := "John Doe",
                     role := "user" } } : AuthResponse).token =
          { id := u.id, email := u.email, role := u.role, name := u.name }) :=
  ⟨by decide,
   c10_no_password_exposure (fun _ => "X") userCaller (fun s => s) "new@x.y"
     "secret" "N" (fun a b => a == b) "user@example.com" "pw2" sampleDB
     { token := { id := 2, email := "user@example.com", role := "user",
                  name := "John Doe" },
       user := { id := 2, email := "user@example.com", name := "John Doe",
                 role := "user" } }
     (by decide)⟩

end ConfApp

